import Mathlib

/-!
Shallow embedding of the clinical-trial data-quality pipeline
(Nest repository): the DQI engine (`base/utils/dqi_calculator.py`),
the ingestion pipeline (`base/utils/excel_parser.py`), the patient
status aggregator (`Patient.update_status` in `base/models.py`) and
the alerting engine (`check_dqi_alerts` in `base/tasks.py`).

Python floats are modelled as rationals (`ℚ`); `round(x, 2)` is
modelled by `round2` below.  Record-store tables are lists of
records; Django `get_or_create` / `update_or_create` become explicit
first-match lookups followed by an update or an append.
-/

namespace Nest

/-- Python `round(x, 2)` (to two decimal places), on rationals. -/
def round2 (x : ℚ) : ℚ := (round (x * 100) : ℚ) / 100

/-- Python `str.replace(pat, rep)` on character lists: replace every
non-overlapping occurrence of `pat`, scanning left to right.  `fuel`
bounds the recursion (each step consumes at least one character, so
the input length is enough fuel). -/
def listReplaceAux (pat rep : List Char) : Nat → List Char → List Char
  | _, [] => []
  | 0, l => l
  | fuel + 1, c :: cs =>
    if pat ≠ [] ∧ pat.isPrefixOf (c :: cs) then
      rep ++ listReplaceAux pat rep fuel (cs.drop (pat.length - 1))
    else
      c :: listReplaceAux pat rep fuel cs

/-- Python `str.replace` on strings. -/
def strReplace (s pat rep : String) : String :=
  ⟨listReplaceAux pat.data rep.data s.data.length s.data⟩

/-- Python `str.strip()`: drop leading and trailing whitespace. -/
def strTrim (s : String) : String :=
  ⟨((s.data.dropWhile Char.isWhitespace).reverse.dropWhile Char.isWhitespace).reverse⟩

/-- Python `str.lower()` (ASCII, as the ingested codes are ASCII). -/
def strLower (s : String) : String :=
  ⟨s.data.map Char.toLower⟩

/-! ## DQI engine (`base/utils/dqi_calculator.py`)

The per-site slice of the record store that `DQICalculator` reads:
only the fields its filters touch are modelled. -/

structure LabDataD where
  is_missing : Bool
deriving DecidableEq, Repr

structure FormD where
  is_required : Bool
  is_complete : Bool
  is_verified : Bool
deriving DecidableEq, Repr

structure QueryD where
  is_resolved : Bool
  days_open : ℚ
deriving DecidableEq, Repr

structure VisitD where
  is_completed : Bool
deriving DecidableEq, Repr

structure CodingD where
  is_resolved : Bool
deriving DecidableEq, Repr

/-- Everything `DQICalculator` reads about one site: the patient
count and the site's lab / form / query / visit / coding-issue rows. -/
structure SiteData where
  total_patients : ℕ
  labs : List LabDataD
  forms : List FormD
  queries : List QueryD
  visits : List VisitD
  coding_issues : List CodingD
deriving DecidableEq, Repr

/-- The mutable site fields `DQICalculator.calculate` writes. -/
structure SiteFields where
  dqi_score : ℚ
  last_calculated : Option ℕ
deriving DecidableEq, Repr

/-- One `DQIHistory` row (audit snapshot of one computation). -/
structure DQIHistoryRec where
  dqi_score : ℚ
  missing_data_score : ℚ
  query_score : ℚ
  visit_completion_score : ℚ
  verification_score : ℚ
  coding_score : ℚ
deriving DecidableEq, Repr

/-- The state `DQICalculator.calculate` mutates: the site's cached
fields plus the site's history rows, most recent first (the model
prepends, matching `DQIHistory.Meta.ordering = ['-calculated_at']`). -/
structure DQIState where
  site : SiteFields
  history : List DQIHistoryRec
deriving DecidableEq, Repr

/-- `DQICalculator.WEIGHTS` (note the key is `open_queries`, while the
scores dict built in `calculate` uses the key `query`). -/
def WEIGHTS : List (String × ℚ) :=
  [("missing_data", 30), ("open_queries", 25), ("visit_completion", 20),
   ("verification", 15), ("coding", 10)]

/-- `calculate_missing_data_score`. -/
def calculate_missing_data_score (d : SiteData) : ℚ :=
  let total_labs : ℚ := d.labs.length
  let missing_labs : ℚ := (d.labs.filter (·.is_missing)).length
  let total_forms : ℚ := (d.forms.filter (·.is_required)).length
  let incomplete_forms : ℚ :=
    (d.forms.filter (fun f => f.is_required && !f.is_complete)).length
  if total_labs + total_forms = 0 then 100
  else
    let missing_rate := (missing_labs + incomplete_forms) / (total_labs + total_forms)
    round2 (max 0 (100 - missing_rate * 100))

/-- `calculate_query_score`. -/
def calculate_query_score (d : SiteData) : ℚ :=
  let total_queries : ℚ := d.queries.length
  let openQs := d.queries.filter (fun q => !q.is_resolved)
  let open_queries : ℚ := openQs.length
  if total_queries = 0 then 100
  else
    let open_rate := open_queries / total_queries
    let avg_age : ℚ :=
      if openQs.length = 0 then 0
      else (openQs.map (·.days_open)).sum / openQs.length
    let volume_penalty := open_rate * 50
    let age_penalty := min (avg_age / 2) 50
    round2 (max 0 (100 - volume_penalty - age_penalty))

/-- `calculate_visit_completion_score`. -/
def calculate_visit_completion_score (d : SiteData) : ℚ :=
  let total_visits : ℚ := d.visits.length
  let completed_visits : ℚ := (d.visits.filter (·.is_completed)).length
  if total_visits = 0 then 100
  else round2 (completed_visits / total_visits * 100)

/-- `calculate_verification_score`. -/
def calculate_verification_score (d : SiteData) : ℚ :=
  let total_forms : ℚ := d.forms.length
  let verified_forms : ℚ := (d.forms.filter (·.is_verified)).length
  if total_forms = 0 then 100
  else round2 (verified_forms / total_forms * 100)

/-- `calculate_coding_score`. -/
def calculate_coding_score (d : SiteData) : ℚ :=
  let total_issues : ℚ := d.coding_issues.length
  let unresolved_issues : ℚ :=
    (d.coding_issues.filter (fun c => !c.is_resolved)).length
  if total_issues = 0 then 100
  else round2 ((total_issues - unresolved_issues) / total_issues * 100)

/-- The weight lookup in `calculate`:
`WEIGHTS.get(key, WEIGHTS.get(key.replace('query', 'open_queries'), 0))`. -/
def weightFor (key : String) : ℚ :=
  ((WEIGHTS.lookup key).getD
    ((WEIGHTS.lookup (strReplace key "query" "open_queries")).getD 0))

/-- `DQICalculator.calculate` on a site: returns the Python return
value and the updated site fields / history. `now` stands for
`timezone.now()`.  The scores dict is built once (in insertion order,
as Python dicts iterate) and both the weighted sum and the history
snapshot read from it, as in the source. -/
def calculate (d : SiteData) (now : ℕ) (st : DQIState) : ℚ × DQIState :=
  if d.total_patients = 0 then (0, st)
  else
    let s_md := calculate_missing_data_score d
    let s_q := calculate_query_score d
    let s_vc := calculate_visit_completion_score d
    let s_vf := calculate_verification_score d
    let s_cd := calculate_coding_score d
    let scores : List (String × ℚ) :=
      [("missing_data", s_md), ("query", s_q), ("visit_completion", s_vc),
       ("verification", s_vf), ("coding", s_cd)]
    let dqi := (scores.map (fun p => p.2 * (weightFor p.1 / 100))).sum
    let hist : DQIHistoryRec :=
      { dqi_score := dqi
        missing_data_score := s_md
        query_score := s_q
        visit_completion_score := s_vc
        verification_score := s_vf
        coding_score := s_cd }
    (dqi,
     { site := { dqi_score := round2 dqi, last_calculated := some now }
       history := hist :: st.history })

/-! ## Patient status aggregator (`Patient.update_status` in `base/models.py`) -/

structure PQuery where
  is_resolved : Bool
deriving DecidableEq, Repr

structure PVisit where
  is_missing : Bool
deriving DecidableEq, Repr

structure PForm where
  is_complete : Bool
deriving DecidableEq, Repr

structure PLab where
  is_missing : Bool
deriving DecidableEq, Repr

/-- The per-patient slices `update_status` reads: the patient's
queries, visits, the forms of all the patient's visits
(`Form.objects.filter(visit__patient=self)`), and lab data. -/
structure PatientData where
  queries : List PQuery
  visits : List PVisit
  forms : List PForm
  lab_data : List PLab
deriving DecidableEq, Repr

/-- The derived patient fields `update_status` writes. -/
structure PatientFields where
  status : String
  is_clean : Bool
  issues_count : ℕ
deriving DecidableEq, Repr

/-- `Patient.update_status`: recompute `issues_count` and the status
bucket; returns the written fields and the Python return value
(`total_issues`). -/
def update_status (d : PatientData) : PatientFields × ℕ :=
  let open_queries := (d.queries.filter (fun q => !q.is_resolved)).length
  let missing_visits := (d.visits.filter (·.is_missing)).length
  let incomplete_forms := (d.forms.filter (fun f => !f.is_complete)).length
  let missing_labs := (d.lab_data.filter (·.is_missing)).length
  let total_issues := open_queries + missing_visits + incomplete_forms + missing_labs
  let fields : PatientFields :=
    if total_issues = 0 then ⟨"clean", true, total_issues⟩
    else if total_issues ≤ 3 then ⟨"minor_issues", false, total_issues⟩
    else if total_issues ≤ 10 then ⟨"major_issues", false, total_issues⟩
    else ⟨"critical", false, total_issues⟩
  (fields, total_issues)

/-! ## Alerting engine (`check_dqi_alerts` in `base/tasks.py`) -/

/-- The site fields `check_dqi_alerts` reads. -/
structure AlertSite where
  site_number : String
  dqi_score : ℚ
deriving DecidableEq, Repr

/-- A query row as read by the `query_age` rule
(`Query.objects.filter(patient__site=site, ...)`). -/
structure AlertQueryRec where
  is_resolved : Bool
  days_open : ℤ
deriving DecidableEq, Repr

/-- One `Alert` row (the fields `check_dqi_alerts` reads or writes). -/
structure AlertRec where
  site_number : String
  alert_type : String
  severity : String
  message : String
  is_resolved : Bool
deriving DecidableEq, Repr

/-- The `dqi_drop` alert `check_dqi_alerts` creates: severity
`critical` below 45, `high` below 60, unresolved. -/
def dropAlertRec (site : AlertSite) : AlertRec :=
  { site_number := site.site_number, alert_type := "dqi_drop",
    severity := if site.dqi_score < 45 then "critical" else "high",
    message := "Site " ++ site.site_number ++ " DQI score dropped to " ++
      toString site.dqi_score ++ "/100. Immediate attention required.",
    is_resolved := false }

/-- The `query_age` alert `check_dqi_alerts` creates. -/
def queryAgeAlertRec (site : AlertSite) (old_queries : ℕ) : AlertRec :=
  { site_number := site.site_number, alert_type := "query_age", severity := "high",
    message := "Site " ++ site.site_number ++ " has " ++ toString old_queries ++
      " queries open for more than 21 days.",
    is_resolved := false }

/-- `check_dqi_alerts(site_id)`: `site_queries` is the site's query
set, `alerts` the alert table restricted to fields the task touches.
New alerts are appended. -/
def check_dqi_alerts (site : AlertSite) (site_queries : List AlertQueryRec)
    (alerts : List AlertRec) : List AlertRec :=
  let alerts1 :=
    if site.dqi_score < 60 then
      let existing := alerts.any (fun a =>
        a.site_number == site.site_number && a.alert_type == "dqi_drop" && !a.is_resolved)
      if !existing then alerts ++ [dropAlertRec site]
      else alerts
    else alerts
  let old_queries :=
    (site_queries.filter (fun q => !q.is_resolved && 21 ≤ q.days_open)).length
  if 10 < old_queries then
    let existing := alerts1.any (fun a =>
      a.site_number == site.site_number && a.alert_type == "query_age" && !a.is_resolved)
    if !existing then alerts1 ++ [queryAgeAlertRec site old_queries]
    else alerts1
  else alerts1

/-- Unresolved `dqi_drop` alerts of one site. -/
def unresolvedDropAlerts (alerts : List AlertRec) (sn : String) : List AlertRec :=
  alerts.filter (fun a => a.site_number == sn && a.alert_type == "dqi_drop" && !a.is_resolved)

/-! ## Ingestion pipeline (`base/utils/excel_parser.py`)

A tabular cell is a string, a date (a day number, as produced by
`pd.to_datetime(...).date()`), or NaN (an empty cell).  A malformed
date is any non-date cell: `pd.to_datetime` raises on it. -/

inductive Cell where
  | str : String → Cell
  | date : Int → Cell
  | nan : Cell
deriving DecidableEq, Repr

/-- A row, keyed by (normalized) column name. -/
abbrev Row := List (String × Cell)

/-- One sheet: column labels plus the rows, in order. -/
structure DataFrame where
  columns : List String
  rows : List Row
deriving DecidableEq, Repr

/-- `row[col]` / `row.get(col)`: a label absent from the row reads as
NaN (pandas fills missing values with NaN). -/
def getCell (row : Row) (col : String) : Cell :=
  (row.lookup col).getD Cell.nan

/-- Python `str(cell)` (never raises). -/
def cellStr : Cell → String
  | .str s => s
  | .date d => toString d
  | .nan => "nan"

/-- `pd.to_datetime(cell)`: a date cell parses, anything else raises. -/
def toDateOpt : Cell → Option Int
  | .date d => some d
  | _ => none

/-- `row.get(col, default)` used for optional string enrichment
fields: absent or NaN cells yield the default. -/
def rowGetStr (row : Row) (col : String) (dflt : String) : String :=
  match (row.lookup col).getD Cell.nan with
  | .str s => s
  | .date d => toString d
  | .nan => dflt

/-- One `Site` row (the fields the parser writes). -/
structure SiteRec where
  site_number : String
  site_name : String
  country : String
  investigator_name : String
deriving DecidableEq, Repr

/-- One `Patient` row; `site_number` is the owning site's key
(everything happens within the upload's study). -/
structure PatientRec where
  site_number : String
  patient_id : String
deriving DecidableEq, Repr

/-- One `Visit` row (the fields the parser reads or writes). -/
structure VisitRec where
  site_number : String
  patient_id : String
  visit_number : String
  visit_name : String
  scheduled_date : Option Int
  actual_date : Option Int
  is_completed : Bool
  is_missing : Bool
deriving DecidableEq, Repr

/-- One `Query` row (the fields the parser writes). -/
structure QueryRec where
  query_id : String
  site_number : String
  patient_id : String
  query_text : String
  query_type : String
  severity : String
  opened_date : Int
  is_resolved : Bool
  days_open : Int
deriving DecidableEq, Repr

/-- One `LabData` row (the fields the parser writes). -/
structure LabRec where
  site_number : String
  patient_id : String
  visit_number : String
  lab_name : String
  test_name : String
  reference_range : String
  test_code : String
  is_missing : Bool
deriving DecidableEq, Repr

/-- One `CodingIssue` row (the fields the parser writes). -/
structure CodingRec where
  site_number : String
  patient_id : String
  issue_type : String
  term : String
  suggested_code : String
  is_resolved : Bool
deriving DecidableEq, Repr

/-- The record-store tables the ingestion pipeline touches, scoped to
the upload's study. -/
structure Store where
  sites : List SiteRec
  patients : List PatientRec
  visits : List VisitRec
  queries : List QueryRec
  lab_data : List LabRec
  coding_issues : List CodingRec
deriving DecidableEq, Repr

/-- `ExcelParser.get_or_create_site`: first match on the natural key
`(study, site_number)` (DB-unique, so at most one row can match) or
create with defaulted descriptive fields.  Returns the site key. -/
def get_or_create_site (st : Store) (site_number : Cell)
    (site_name country : String) : String × Store :=
  let key := strTrim (cellStr site_number)
  (key,
   if st.sites.any (fun s => s.site_number == key) then st
   else
     { st with
        sites := st.sites ++
          [{ site_number := key
             site_name := if site_name = "" then "Site " ++ cellStr site_number else site_name
             country := if country = "" then "Unknown" else country
             investigator_name := "TBD" }] })

/-- `ExcelParser.get_or_create_patient`: first match on the natural
key `(site, patient_id)` (DB-unique) or create.  Returns the patient
id key. -/
def get_or_create_patient (st : Store) (siteKey : String)
    (patient_id : Cell) : String × Store :=
  let pid := strTrim (cellStr patient_id)
  (pid,
   if st.patients.any (fun p => p.site_number == siteKey && p.patient_id == pid) then st
   else
     { st with patients := st.patients ++ [{ site_number := siteKey, patient_id := pid }] })

/-- `Visit.objects.get_or_create(patient=…, visit_number=…, defaults=…)`:
key `(patient, visit_number)` is DB-unique, so at most one row matches. -/
def visitGetOrCreate (st : Store) (siteKey pid visit_num visit_name : String) : Store :=
  if st.visits.any (fun v =>
      v.site_number == siteKey && v.patient_id == pid && v.visit_number == visit_num) then st
  else
    { st with
       visits := st.visits ++
         [{ site_number := siteKey, patient_id := pid, visit_number := visit_num
            visit_name := visit_name, scheduled_date := none, actual_date := none
            is_completed := false, is_missing := false }] }

/-- `Visit.objects.update_or_create(patient=…, visit_number=…, defaults=d)`:
update the (at most one, by the DB-unique key) matching visit with the
supplied defaults, or create it. -/
def visitUpdateOrCreate (st : Store) (siteKey pid visit_num : String)
    (d : VisitRec) : Store :=
  if st.visits.any (fun v =>
      v.site_number == siteKey && v.patient_id == pid && v.visit_number == visit_num) then
    { st with
       visits := st.visits.map (fun v =>
         if v.site_number == siteKey && v.patient_id == pid && v.visit_number == visit_num
         then d else v) }
  else { st with visits := st.visits ++ [d] }

/-- `LabData.objects.update_or_create(patient=…, visit=…, lab_name=…,
test_name=…, defaults=…)`: update the first match on the composite
key or create. -/
def labUpdateOrCreate (st : Store) (siteKey pid visit_num lab test : String)
    (ref code : String) : Store :=
  let isMatch := fun (l : LabRec) =>
    l.site_number == siteKey && l.patient_id == pid && l.visit_number == visit_num &&
    l.lab_name == lab && l.test_name == test
  let d : LabRec :=
    { site_number := siteKey, patient_id := pid, visit_number := visit_num
      lab_name := lab, test_name := test, reference_range := ref, test_code := code
      is_missing := true }
  if st.lab_data.any isMatch then
    { st with lab_data := st.lab_data.map (fun l => if isMatch l then d else l) }
  else { st with lab_data := st.lab_data ++ [d] }

/-- The queries matching one `query_id`, across all patients:
`Query.objects.update_or_create(query_id=…)` filters on `query_id`
alone. -/
def queryMatches (qs : List QueryRec) (qid : String) : List QueryRec :=
  qs.filter (fun q => q.query_id == qid)

/-- `Query.objects.update_or_create(query_id=qid, defaults=d)`: the
lookup is keyed on `query_id` alone (the DB-unique key is
`(patient, query_id)`, so several patients may hold the same
`query_id`; Django then raises `MultipleObjectsReturned`, caught as a
row-level error).  One match is updated wholesale with the defaults
(which include the patient); no match creates the record. -/
def queryUpdateOrCreate (qs : List QueryRec) (qid : String)
    (d : QueryRec) : Except String (List QueryRec) :=
  match queryMatches qs qid with
  | [] => .ok (qs ++ [d])
  | [_] => .ok (qs.map (fun q => if q.query_id == qid then d else q))
  | _ => .error "get() returned more than one Query"

/-- A row body returns the store as the row left it — partial writes
made before an exception persist, as each Django `get_or_create`
commits on its own — plus the raised message, if any. -/
abbrev RowOutcome := Store × Option String

/-- The body of one `missing_labs` row (inside the per-row `try`). -/
def missingLabsRow (st : Store) (row : Row) : RowOutcome :=
  let (siteKey, st1) := get_or_create_site st (getCell row "site_number")
    (rowGetStr row "site_name" "") (rowGetStr row "country" "")
  let (pid, st2) := get_or_create_patient st1 siteKey (getCell row "patient_id")
  let visit_num := strTrim (cellStr (getCell row "visit"))
  let st3 := visitGetOrCreate st2 siteKey pid visit_num ("Visit " ++ visit_num)
  (labUpdateOrCreate st3 siteKey pid visit_num
    (strTrim (cellStr (getCell row "lab_name"))) (strTrim (cellStr (getCell row "test_name")))
    (rowGetStr row "reference_range" "") (rowGetStr row "test_code" ""), none)

/-- The optional-date read shared by `missing_visits` (for
`scheduled_date`) and `visit_projections` (for `actual_date`): an
absent or NaN cell reads as `none`, a date cell parses, anything
else raises inside `pd.to_datetime`. -/
def optionalDate (row : Row) (col : String) : Except String (Option Int) :=
  match (row.lookup col).getD Cell.nan with
  | Cell.nan => .ok none
  | c =>
    match toDateOpt c with
    | some d => .ok (some d)
    | none => .error "Unknown datetime string format"

/-- The body of one `missing_visits` row: parse the optional
`scheduled_date` (raising on a malformed cell), then upsert the visit
with `is_missing=True`, `is_completed=False`. -/
def missingVisitsRow (st : Store) (row : Row) : RowOutcome :=
  let (siteKey, st1) := get_or_create_site st (getCell row "site_number") "" ""
  let (pid, st2) := get_or_create_patient st1 siteKey (getCell row "patient_id")
  let visit_num := strTrim (cellStr (getCell row "visit_number"))
  let visit_name := rowGetStr row "visit_name" ("Visit " ++ visit_num)
  match optionalDate row "scheduled_date" with
  | .error e => (st2, some e)
  | .ok scheduled_date =>
    (visitUpdateOrCreate st2 siteKey pid visit_num
      { site_number := siteKey, patient_id := pid, visit_number := visit_num
        visit_name := visit_name, scheduled_date := scheduled_date, actual_date := none
        is_completed := false, is_missing := true }, none)

/-- The defaults dict of the query upsert, as a record: every stored
field, including the owning patient, comes from the row. -/
def openQueriesDefaults (today : Int) (row : Row) (siteKey pid : String)
    (opened_date : Int) : QueryRec :=
  { query_id := strTrim (cellStr (getCell row "query_id"))
    site_number := siteKey
    patient_id := pid
    query_text := rowGetStr row "query_text" "No description"
    query_type := rowGetStr row "query_type" "missing_data"
    severity := rowGetStr row "severity" "medium"
    opened_date := opened_date, is_resolved := false
    days_open := today - opened_date }

/-- The body of one `open_queries` row: the site and patient
get-or-creates run first; parsing `opened_date` raises on a malformed
cell; then the query upsert keyed on `query_id` alone. -/
def openQueriesRow (today : Int) (st : Store) (row : Row) : RowOutcome :=
  let (siteKey, st1) := get_or_create_site st (getCell row "site_number") "" ""
  let (pid, st2) := get_or_create_patient st1 siteKey (getCell row "patient_id")
  match toDateOpt (getCell row "opened_date") with
  | none => (st2, some "Unknown datetime string format")
  | some opened_date =>
    let qid := strTrim (cellStr (getCell row "query_id"))
    match queryUpdateOrCreate st2.queries qid
        (openQueriesDefaults today row siteKey pid opened_date) with
    | .error e => (st2, some e)
    | .ok qs => ({ st2 with queries := qs }, none)

/-- The body of one `coding_issues` row: a supplied `issue_type` cell
must be a string (`.lower()` raises on a NaN float or a timestamp); a
missing column defaults to `"meddra"`; a (lowercased) type outside
meddra/whodd/other is stored as `"other"`.  Always creates a new
`CodingIssue`. -/
def codingIssuesRow (st : Store) (row : Row) : RowOutcome :=
  let (siteKey, st1) := get_or_create_site st (getCell row "site_number") "" ""
  let (pid, st2) := get_or_create_patient st1 siteKey (getCell row "patient_id")
  let issue_type? : Except String String :=
    match row.lookup "issue_type" with
    | none => .ok (strLower "meddra")
    | some (Cell.str s) => .ok (strLower s)
    | some _ => .error "object has no attribute lower"
  match issue_type? with
  | .error e => (st2, some e)
  | .ok t =>
    let issue_type := if t ∈ ["meddra", "whodd", "other"] then t else "other"
    ({ st2 with
        coding_issues := st2.coding_issues ++
          [{ site_number := siteKey, patient_id := pid, issue_type := issue_type
             term := strTrim (cellStr (getCell row "term"))
             suggested_code := rowGetStr row "suggested_code" ""
             is_resolved := false }] }, none)

/-- The body of one `visit_projections` row. -/
def visitProjectionsRow (st : Store) (row : Row) : RowOutcome :=
  let (siteKey, st1) := get_or_create_site st (getCell row "site_number") "" ""
  let (pid, st2) := get_or_create_patient st1 siteKey (getCell row "patient_id")
  let visit_num := strTrim (cellStr (getCell row "visit_number"))
  match toDateOpt (getCell row "projected_date") with
  | none => (st2, some "Unknown datetime string format")
  | some projected_date =>
    match optionalDate row "actual_date" with
    | .error e => (st2, some e)
    | .ok actual_date =>
      let is_completed := actual_date.isSome
      (visitUpdateOrCreate st2 siteKey pid visit_num
        { site_number := siteKey, patient_id := pid, visit_number := visit_num
          visit_name := rowGetStr row "visit_name" ("Visit " ++ visit_num)
          scheduled_date := some projected_date, actual_date := actual_date
          is_completed := is_completed, is_missing := !is_completed }, none)

/-- The shared per-row loop: each row runs inside a `try`; a failing
row contributes a `"Row N: message"` error and leaves the store as
that row's attempt left it before the raise; a succeeding row bumps
`rows_processed`. -/
def processRows (step : Store → Row → RowOutcome) :
    Store → Nat → List Row → Store × Nat × List String
  | st, _, [] => (st, 0, [])
  | st, idx, r :: rs =>
    let out := step st r
    match out.2 with
    | none =>
      let rest := processRows step out.1 (idx + 1) rs
      (rest.1, rest.2.1 + 1, rest.2.2)
    | some e =>
      let rest := processRows step out.1 (idx + 1) rs
      (rest.1, rest.2.1, ("Row " ++ toString idx ++ ": " ++ e) :: rest.2.2)

/-- Required-column check shared by every per-type parser. -/
def hasRequired (df : DataFrame) (required : List String) : Bool :=
  required.all (fun c => df.columns.contains c)

/-- `ExcelParser.parse_missing_labs`. -/
def parse_missing_labs (df : DataFrame) (st : Store) : Store × Nat × List String :=
  let required := ["site_number", "patient_id", "visit", "lab_name", "test_name"]
  if hasRequired df required then processRows missingLabsRow st 0 df.rows
  else (st, 0, ["Missing required columns. Required: " ++ toString required])

/-- `ExcelParser.parse_missing_visits`. -/
def parse_missing_visits (df : DataFrame) (st : Store) : Store × Nat × List String :=
  let required := ["site_number", "patient_id", "visit_number"]
  if hasRequired df required then processRows missingVisitsRow st 0 df.rows
  else (st, 0, ["Missing required columns. Required: " ++ toString required])

/-- `ExcelParser.parse_open_queries`. -/
def parse_open_queries (today : Int) (df : DataFrame) (st : Store) :
    Store × Nat × List String :=
  let required := ["site_number", "patient_id", "query_id", "opened_date"]
  if hasRequired df required then processRows (openQueriesRow today) st 0 df.rows
  else (st, 0, ["Missing required columns. Required: " ++ toString required])

/-- `ExcelParser.parse_coding_issues`. -/
def parse_coding_issues (df : DataFrame) (st : Store) : Store × Nat × List String :=
  let required := ["site_number", "patient_id", "term"]
  if hasRequired df required then processRows codingIssuesRow st 0 df.rows
  else (st, 0, ["Missing required columns. Required: " ++ toString required])

/-- `ExcelParser.parse_visit_projections`. -/
def parse_visit_projections (df : DataFrame) (st : Store) : Store × Nat × List String :=
  let required := ["site_number", "patient_id", "visit_number", "projected_date"]
  if hasRequired df required then processRows visitProjectionsRow st 0 df.rows
  else (st, 0, ["Missing required columns. Required: " ++ toString required])

/-- Header normalization: trim, lowercase, spaces to underscores
(`df.columns.str.strip().str.lower().str.replace(' ', '_')`). -/
def normalizeCol (s : String) : String :=
  strReplace (strLower (strTrim s)) " " "_"

/-- Renaming the columns renames the labels rows are read by. -/
def normalizeDf (df : DataFrame) : DataFrame :=
  { columns := df.columns.map normalizeCol
    rows := df.rows.map (fun r => r.map (fun p => (normalizeCol p.1, p.2))) }

/-- What `ExcelParser.parse` produces: the `(success, rows_processed)`
return value, the accumulated `self.errors`, and the record store. -/
structure ParseResult where
  success : Bool
  rows_processed : Nat
  errors : List String
  store : Store
deriving DecidableEq, Repr

/-- `parser_methods.get(self.file_type)`: the routing table of
`ExcelParser.parse`. -/
def parserFor (file_type : String) :
    Option (Int → DataFrame → Store → Store × Nat × List String) :=
  if file_type = "missing_labs" then some (fun _ df st => parse_missing_labs df st)
  else if file_type = "missing_visits" then some (fun _ df st => parse_missing_visits df st)
  else if file_type = "coding_issues" then some (fun _ df st => parse_coding_issues df st)
  else if file_type = "open_queries" then some (fun t df st => parse_open_queries t df st)
  else if file_type = "visit_projections" then some (fun _ df st => parse_visit_projections df st)
  else none

/-- `ExcelParser.parse`.  `file = none` models an unreadable file
(`pd.read_excel` raises): the surrounding `try` produces
`(False, 0)` with one error.  A readable file is normalized and
routed by `file_type`; an unknown tag records one error but still
returns `True` with zero rows processed. -/
def parse (file : Option DataFrame) (file_type : String) (today : Int)
    (st : Store) : ParseResult :=
  match file with
  | none =>
    { success := false, rows_processed := 0
      errors := ["Error parsing file: unreadable file"], store := st }
  | some df =>
    let df := normalizeDf df
    match parserFor file_type with
    | some p =>
      let (st', n, es) := p today df st
      { success := true, rows_processed := n, errors := es, store := st' }
    | none =>
      { success := true, rows_processed := 0
        errors := ["Unknown file type: " ++ file_type], store := st }

/-- The `open_queries` rows that parse without an exception: only the
`pd.to_datetime(row['opened_date'])` call can raise in
`openQueriesRow` (besides a multi-match query upsert, ruled out when
`query_id`s are unique). -/
def okOpenQueriesRow (row : Row) : Bool :=
  (toDateOpt (getCell row "opened_date")).isSome

/-- `query_id` values are pairwise distinct (true of any store that
was populated by the upsert itself). -/
def qidUnique (qs : List QueryRec) : Prop :=
  (qs.map (fun q => q.query_id)).Nodup

/-! ## Concrete inputs used by witnesses and counterexamples -/

/-- The empty record store. -/
def emptyStore : Store := ⟨[], [], [], [], [], []⟩

/-- A fresh DQI state. -/
def dqiState0 : DQIState := ⟨⟨0, none⟩, []⟩

/-- A DQI state carrying an earlier score and history row. -/
def dqiState1 : DQIState := ⟨⟨55, some 7⟩, [⟨80, 81, 82, 83, 84, 85⟩]⟩

/-- One patient; three labs, one missing; nothing else.  The
missing-data sub-score is 66.67 and the overall DQI 90.001. -/
def siteDataThirds : SiteData :=
  { total_patients := 1, labs := [⟨true⟩, ⟨false⟩, ⟨false⟩],
    forms := [], queries := [], visits := [], coding_issues := [] }

/-- One patient and no data rows: every sub-score defaults to 100. -/
def siteDataClean : SiteData :=
  { total_patients := 1, labs := [], forms := [], queries := [], visits := [],
    coding_issues := [] }

/-- A site with no patients (but stray data rows). -/
def siteDataEmpty : SiteData :=
  { total_patients := 0, labs := [⟨true⟩], forms := [], queries := [], visits := [],
    coding_issues := [] }

/-- A patient with exactly `k` open issues (all unresolved queries). -/
def patientWithIssues (k : ℕ) : PatientData :=
  { queries := List.replicate k ⟨false⟩, visits := [], forms := [], lab_data := [] }

/-- A site whose DQI sits below the 60 alert threshold. -/
def siteW : AlertSite := ⟨"S1", 50⟩

/-- A `coding_issues` row whose supplied issue type is not one of
meddra/whodd/other. -/
def rowCodingBad : Row :=
  [("site_number", Cell.str "S1"), ("patient_id", Cell.str "P1"),
   ("term", Cell.str "headache"), ("issue_type", Cell.str "xyz")]

/-- A query already stored under patient P1 (and resolved). -/
def queryUnderP1 : QueryRec :=
  ⟨"Q1", "S1", "P1", "t", "missing_data", "medium", 40, true, 5⟩

/-- A store holding `queryUnderP1`. -/
def storeQ : Store := { emptyStore with queries := [queryUnderP1] }

/-- An `open_queries` row carrying the same `query_id` under the
different patient P2. -/
def rowQueryReassign : Row :=
  [("site_number", Cell.str "S1"), ("patient_id", Cell.str "P2"),
   ("query_id", Cell.str "Q1"), ("opened_date", Cell.date 100)]

/-- An `open_queries` row for a brand-new site and patient whose
`opened_date` cell is malformed. -/
def rowBadDate : Row :=
  [("site_number", Cell.str "S9"), ("patient_id", Cell.str "P9"),
   ("query_id", Cell.str "Q9"), ("opened_date", Cell.str "garbage")]

/-- A one-row `open_queries` sheet holding only `rowBadDate`. -/
def dfBadDate : DataFrame :=
  ⟨["site_number", "patient_id", "query_id", "opened_date"], [rowBadDate]⟩

/-! ## Theorems -/

lemma weightFor_missing_data : weightFor "missing_data" = 30 := by decide

lemma weightFor_query : weightFor "query" = 25 := by decide

lemma weightFor_visit_completion : weightFor "visit_completion" = 20 := by decide

lemma weightFor_verification : weightFor "verification" = 15 := by decide

lemma weightFor_coding : weightFor "coding" = 10 := by decide

/-- `calculate` on a site with patients, in closed form. -/
lemma calculate_pos_eq (d : SiteData) (now : ℕ) (st : DQIState)
    (h : d.total_patients ≠ 0) :
    calculate d now st =
      (calculate_missing_data_score d * (weightFor "missing_data" / 100) +
        (calculate_query_score d * (weightFor "query" / 100) +
        (calculate_visit_completion_score d * (weightFor "visit_completion" / 100) +
        (calculate_verification_score d * (weightFor "verification" / 100) +
        (calculate_coding_score d * (weightFor "coding" / 100) + 0)))),
       { site :=
          { dqi_score := round2
              (calculate_missing_data_score d * (weightFor "missing_data" / 100) +
                (calculate_query_score d * (weightFor "query" / 100) +
                (calculate_visit_completion_score d * (weightFor "visit_completion" / 100) +
                (calculate_verification_score d * (weightFor "verification" / 100) +
                (calculate_coding_score d * (weightFor "coding" / 100) + 0)))))
            last_calculated := some now }
         history :=
          { dqi_score :=
              calculate_missing_data_score d * (weightFor "missing_data" / 100) +
                (calculate_query_score d * (weightFor "query" / 100) +
                (calculate_visit_completion_score d * (weightFor "visit_completion" / 100) +
                (calculate_verification_score d * (weightFor "verification" / 100) +
                (calculate_coding_score d * (weightFor "coding" / 100) + 0))))
            missing_data_score := calculate_missing_data_score d
            query_score := calculate_query_score d
            visit_completion_score := calculate_visit_completion_score d
            verification_score := calculate_verification_score d
            coding_score := calculate_coding_score d } :: st.history }) := by
  unfold calculate
  rw [if_neg h]
  rfl

/-- C1: with at least one patient, the computed DQI is the weighted
sum of the five sub-scores with effective weights 30, 25, 20, 15, 10
(the `query` sub-score is weighted 25 — the fallback
`key.replace('query', 'open_queries')` lookup recovers the weight,
not 0), the cached `Site.dqi_score` is that sum rounded to two
decimals, and the effective weights total exactly 100. -/
theorem dqi_weighted_sum_correct (d : SiteData) (now : ℕ) (st : DQIState)
    (h : d.total_patients ≠ 0) :
    (calculate d now st).1 =
      calculate_missing_data_score d * (30 / 100) + calculate_query_score d * (25 / 100) +
        calculate_visit_completion_score d * (20 / 100) +
        calculate_verification_score d * (15 / 100) + calculate_coding_score d * (10 / 100) ∧
    (calculate d now st).2.site.dqi_score =
      round2 (calculate_missing_data_score d * (30 / 100) + calculate_query_score d * (25 / 100) +
        calculate_visit_completion_score d * (20 / 100) +
        calculate_verification_score d * (15 / 100) + calculate_coding_score d * (10 / 100)) ∧
    weightFor "query" = 25 ∧
    weightFor "missing_data" + weightFor "query" + weightFor "visit_completion" +
      weightFor "verification" + weightFor "coding" = 100 := by
  rw [calculate_pos_eq d now st h]
  rw [weightFor_missing_data, weightFor_query, weightFor_visit_completion,
    weightFor_verification, weightFor_coding]
  refine ⟨by ring, ?_, rfl, by norm_num⟩
  show round2 _ = round2 _
  congr 1
  ring

/-- Witness for C1 at a concrete site. -/
theorem dqi_weighted_sum_correct_witness :
    siteDataClean.total_patients ≠ 0 ∧
    ((calculate siteDataClean 3 dqiState0).1 =
      calculate_missing_data_score siteDataClean * (30 / 100) +
        calculate_query_score siteDataClean * (25 / 100) +
        calculate_visit_completion_score siteDataClean * (20 / 100) +
        calculate_verification_score siteDataClean * (15 / 100) +
        calculate_coding_score siteDataClean * (10 / 100) ∧
    (calculate siteDataClean 3 dqiState0).2.site.dqi_score =
      round2 (calculate_missing_data_score siteDataClean * (30 / 100) +
        calculate_query_score siteDataClean * (25 / 100) +
        calculate_visit_completion_score siteDataClean * (20 / 100) +
        calculate_verification_score siteDataClean * (15 / 100) +
        calculate_coding_score siteDataClean * (10 / 100)) ∧
    weightFor "query" = 25 ∧
    weightFor "missing_data" + weightFor "query" + weightFor "visit_completion" +
      weightFor "verification" + weightFor "coding" = 100) :=
  ⟨by decide, dqi_weighted_sum_correct siteDataClean 3 dqiState0 (by decide)⟩

/-- C2 counterexample: after computing the DQI of `siteDataThirds`
the most recent `DQIHistory` entry carries the unrounded score 90.001
while the cached `Site.dqi_score` is the rounded 90, so the cached
field does not equal the latest history entry's `dqi_score`. -/
theorem dqi_cached_ne_history_counterexample :
    ((calculate siteDataThirds 0 dqiState0).2.history.map (fun r => r.dqi_score)) =
      [90001 / 1000] ∧
    (calculate siteDataThirds 0 dqiState0).2.site.dqi_score = 90 ∧
    (90 : ℚ) ≠ 90001 / 1000 := by
  refine ⟨?_, ?_, by norm_num⟩ <;>
  · simp [siteDataThirds, dqiState0, calculate, calculate_missing_data_score,
      calculate_query_score, calculate_visit_completion_score,
      calculate_verification_score, calculate_coding_score, weightFor, WEIGHTS,
      strReplace, listReplaceAux, round2, List.lookup]
    norm_num [round_eq]

/-- C2 amended: after a DQI computation on a site with patients, the
cached `Site.dqi_score` equals the most recent `DQIHistory` entry's
`dqi_score` *rounded to two decimals* (the history row stores the
unrounded sum, the site field the rounded one). -/
theorem dqi_cached_is_rounded_history (d : SiteData) (now : ℕ) (st : DQIState)
    (h : d.total_patients ≠ 0) :
    ∃ hd rest, (calculate d now st).2.history = hd :: rest ∧ rest = st.history ∧
      (calculate d now st).2.site.dqi_score = round2 hd.dqi_score := by
  rw [calculate_pos_eq d now st h]
  exact ⟨_, _, rfl, rfl, rfl⟩

/-- Witness for the amended C2 at a concrete site. -/
theorem dqi_cached_is_rounded_history_witness :
    siteDataThirds.total_patients ≠ 0 ∧
    (∃ hd rest, (calculate siteDataThirds 2 dqiState1).2.history = hd :: rest ∧
      rest = dqiState1.history ∧
      (calculate siteDataThirds 2 dqiState1).2.site.dqi_score = round2 hd.dqi_score) :=
  ⟨by decide, dqi_cached_is_rounded_history siteDataThirds 2 dqiState1 (by decide)⟩

/-- C4: on a site with zero patients the DQI computation returns 0
and appends no `DQIHistory` row. -/
theorem dqi_zero_patients_no_history (d : SiteData) (now : ℕ) (st : DQIState)
    (h : d.total_patients = 0) :
    (calculate d now st).1 = 0 ∧ (calculate d now st).2.history = st.history := by
  unfold calculate
  rw [if_pos h]
  exact ⟨rfl, rfl⟩

/-- Witness for C4 at a concrete site. -/
theorem dqi_zero_patients_no_history_witness :
    siteDataEmpty.total_patients = 0 ∧
    ((calculate siteDataEmpty 5 dqiState1).1 = 0 ∧
      (calculate siteDataEmpty 5 dqiState1).2.history = dqiState1.history) :=
  ⟨by decide, dqi_zero_patients_no_history siteDataEmpty 5 dqiState1 (by decide)⟩

/-- C10: on a site with zero patients the early return performs no
write at all — the cached score, `last_calculated` and the history
are all left exactly as they were. -/
theorem dqi_zero_patients_frame (d : SiteData) (now : ℕ) (st : DQIState)
    (h : d.total_patients = 0) :
    (calculate d now st).2 = st := by
  unfold calculate
  rw [if_pos h]

/-- Witness for C10 at a concrete site whose previous state is
nontrivial. -/
theorem dqi_zero_patients_frame_witness :
    siteDataEmpty.total_patients = 0 ∧
    (calculate siteDataEmpty 9 dqiState1).2 = dqiState1 :=
  ⟨by decide, dqi_zero_patients_frame siteDataEmpty 9 dqiState1 (by decide)⟩

/-- C7: `update_status` stores `issues_count` as the sum of the four
open-issue counts and classifies 0 → clean, 1–3 → minor_issues,
4–10 → major_issues, more than 10 → critical (with `is_clean` true
exactly for clean); in particular 3, 4 and 11 issues land in
minor_issues, major_issues and critical respectively. -/
theorem update_status_buckets (d : PatientData) :
    (update_status d).2 =
      (d.queries.filter (fun q => !q.is_resolved)).length +
        (d.visits.filter (fun v => v.is_missing)).length +
        (d.forms.filter (fun f => !f.is_complete)).length +
        (d.lab_data.filter (fun l => l.is_missing)).length ∧
    (update_status d).1.issues_count = (update_status d).2 ∧
    ((update_status d).1.status, (update_status d).1.is_clean) =
      (if (update_status d).2 = 0 then ("clean", true)
       else if 1 ≤ (update_status d).2 ∧ (update_status d).2 ≤ 3 then ("minor_issues", false)
       else if 4 ≤ (update_status d).2 ∧ (update_status d).2 ≤ 10 then ("major_issues", false)
       else ("critical", false)) ∧
    (update_status (patientWithIssues 3)).1 = ⟨"minor_issues", false, 3⟩ ∧
    (update_status (patientWithIssues 4)).1 = ⟨"major_issues", false, 4⟩ ∧
    (update_status (patientWithIssues 11)).1 = ⟨"critical", false, 11⟩ := by
  refine ⟨rfl, ?_, ?_, by decide, by decide, by decide⟩ <;>
  · simp only [update_status]
    split_ifs <;> first | rfl | (exfalso; omega)

lemma unresolvedDropAlerts_append_qa (alerts : List AlertRec) (site : AlertSite)
    (old : ℕ) (sn : String) :
    unresolvedDropAlerts (alerts ++ [queryAgeAlertRec site old]) sn =
      unresolvedDropAlerts alerts sn := by
  simp [unresolvedDropAlerts, List.filter_append, queryAgeAlertRec]

/-- The `dqi_drop` rule in one equation: a new unresolved alert is
created exactly when the score is below 60 and no unresolved
`dqi_drop` alert exists for the site. -/
lemma check_dqi_alerts_drop (site : AlertSite) (qs : List AlertQueryRec)
    (alerts : List AlertRec) :
    unresolvedDropAlerts (check_dqi_alerts site qs alerts) site.site_number =
      if site.dqi_score < 60 ∧ unresolvedDropAlerts alerts site.site_number = [] then
        [dropAlertRec site]
      else unresolvedDropAlerts alerts site.site_number := by
  have hnil : ∀ l : List AlertRec,
      (l.any (fun a => a.site_number == site.site_number && a.alert_type == "dqi_drop" &&
        !a.is_resolved)) = false ↔ unresolvedDropAlerts l site.site_number = [] := by
    intro l
    simp [unresolvedDropAlerts, List.any_eq_false, List.filter_eq_nil_iff]
  have hq : ∀ l : List AlertRec,
      unresolvedDropAlerts
        (if 10 < (qs.filter (fun q => !q.is_resolved && 21 ≤ q.days_open)).length then
          (if !(l.any (fun a => a.site_number == site.site_number &&
              a.alert_type == "query_age" && !a.is_resolved)) then
            l ++ [queryAgeAlertRec site
              (qs.filter (fun q => !q.is_resolved && 21 ≤ q.days_open)).length]
          else l)
        else l) site.site_number = unresolvedDropAlerts l site.site_number := by
    intro l
    split_ifs <;> simp [unresolvedDropAlerts_append_qa]
  simp only [check_dqi_alerts]
  rw [hq]
  by_cases h60 : site.dqi_score < 60
  · simp only [if_pos h60]
    by_cases hex : (alerts.any (fun a => a.site_number == site.site_number &&
        a.alert_type == "dqi_drop" && !a.is_resolved)) = true
    · simp only [hex, Bool.not_true, Bool.false_eq_true, if_false]
      have hne : ¬ unresolvedDropAlerts alerts site.site_number = [] := by
        intro hc
        rw [← hnil alerts] at hc
        simp [hex] at hc
      rw [if_neg (fun hc => hne hc.2)]
    · have hex' := eq_false_of_ne_true hex
      simp only [hex', Bool.not_false, if_true]
      rw [if_pos ⟨h60, (hnil alerts).mp hex'⟩]
      have h0 : List.filter (fun a => a.site_number == site.site_number &&
          a.alert_type == "dqi_drop" && !a.is_resolved) alerts = [] := by
        simpa [unresolvedDropAlerts] using (hnil alerts).mp hex'
      simp [unresolvedDropAlerts, List.filter_append, h0, dropAlertRec]
  · simp only [if_neg h60]
    rw [if_neg (fun hc => h60 hc.1)]

/-- C8: the alert evaluation creates a `dqi_drop` alert exactly when
the score is below 60 and no unresolved `dqi_drop` alert exists for
the site; the created alert is unresolved with severity `critical`
below 45 and `high` otherwise; and evaluating twice on a site that
stays below 60 leaves exactly one unresolved `dqi_drop` alert. -/
theorem check_dqi_alerts_dedup (site : AlertSite) (qs : List AlertQueryRec)
    (alerts : List AlertRec) :
    (unresolvedDropAlerts (check_dqi_alerts site qs alerts) site.site_number =
      if site.dqi_score < 60 ∧ unresolvedDropAlerts alerts site.site_number = [] then
        [dropAlertRec site]
      else unresolvedDropAlerts alerts site.site_number) ∧
    (dropAlertRec site).alert_type = "dqi_drop" ∧
    (dropAlertRec site).is_resolved = false ∧
    (dropAlertRec site).severity = (if site.dqi_score < 45 then "critical" else "high") ∧
    (site.dqi_score < 60 → unresolvedDropAlerts alerts site.site_number = [] →
      (unresolvedDropAlerts (check_dqi_alerts site qs (check_dqi_alerts site qs alerts))
        site.site_number).length = 1) := by
  refine ⟨check_dqi_alerts_drop site qs alerts, rfl, rfl, rfl, fun h60 h0 => ?_⟩
  have h1 : unresolvedDropAlerts (check_dqi_alerts site qs alerts) site.site_number =
      [dropAlertRec site] := by
    rw [check_dqi_alerts_drop, if_pos ⟨h60, h0⟩]
  have h2 := check_dqi_alerts_drop site qs (check_dqi_alerts site qs alerts)
  rw [h1] at h2
  rw [if_neg (fun hc => by simpa using hc.2)] at h2
  rw [h2]
  rfl

/-- Witness for C8: a site at DQI 50 with no alerts gains exactly one
unresolved `dqi_drop` alert across two evaluations. -/
theorem check_dqi_alerts_dedup_witness :
    siteW.dqi_score < 60 ∧ unresolvedDropAlerts [] siteW.site_number = [] ∧
    (unresolvedDropAlerts (check_dqi_alerts siteW [] (check_dqi_alerts siteW [] []))
      siteW.site_number).length = 1 := by
  refine ⟨by show (50 : ℚ) < 60; norm_num, rfl, ?_⟩
  exact (check_dqi_alerts_dedup siteW [] []).2.2.2.2 (by show (50 : ℚ) < 60; norm_num) rfl

/-- C3 counterexample: ingesting with the unknown file-type tag
`"bogus"` records one error and zero rows but returns
`success = true`, not `false`. -/
theorem parse_unknown_type_counterexample :
    (parse (some ⟨[], []⟩) "bogus" 0 emptyStore).success = true ∧
    (parse (some ⟨[], []⟩) "bogus" 0 emptyStore).rows_processed = 0 ∧
    (parse (some ⟨[], []⟩) "bogus" 0 emptyStore).errors = ["Unknown file type: bogus"] := by
  decide

/-- C3 amended: the success flag is false exactly when the file is
unreadable (the only failure the surrounding `try` turns into
`(False, 0)`), and then zero rows are processed with one descriptive
error; an unknown file-type tag instead returns `success = true`
with zero rows processed and one descriptive error; row-level errors
never make success false (a readable file always yields
`success = true`). -/
theorem parse_success_iff_unreadable (file : Option DataFrame) (ft : String)
    (today : Int) (st : Store) :
    ((parse file ft today st).success = false ↔ file = none) ∧
    (parse none ft today st =
      { success := false, rows_processed := 0,
        errors := ["Error parsing file: unreadable file"], store := st }) ∧
    (ft ∉ ["missing_labs", "missing_visits", "coding_issues", "open_queries",
        "visit_projections"] →
      ∀ df, parse (some df) ft today st =
        { success := true, rows_processed := 0,
          errors := ["Unknown file type: " ++ ft], store := st }) := by
  refine ⟨?_, rfl, fun hmem df => ?_⟩
  · cases file with
    | none => simp [parse]
    | some df =>
      simp only [parse]
      cases hp : parserFor ft with
      | none => simp
      | some p => simp
  · have hp : parserFor ft = none := by
      unfold parserFor
      split_ifs with h1 h2 h3 h4 h5
      · exact absurd (by rw [h1]; decide) hmem
      · exact absurd (by rw [h2]; decide) hmem
      · exact absurd (by rw [h3]; decide) hmem
      · exact absurd (by rw [h4]; decide) hmem
      · exact absurd (by rw [h5]; decide) hmem
      · rfl
    simp [parse, hp]

/-- Witness for the amended C3 at a concrete unknown tag. -/
theorem parse_success_iff_unreadable_witness :
    ("bogus" ∉ ["missing_labs", "missing_visits", "coding_issues", "open_queries",
      "visit_projections"]) ∧
    parse (some ⟨[], []⟩) "bogus" 7 emptyStore =
      { success := true, rows_processed := 0,
        errors := ["Unknown file type: bogus"], store := emptyStore } :=
  ⟨by decide,
   (parse_success_iff_unreadable (some ⟨[], []⟩) "bogus" 7 emptyStore).2.2 (by decide) ⟨[], []⟩⟩

lemma gocs_coding (s : Store) (c : Cell) (a b : String) :
    ((get_or_create_site s c a b).2).coding_issues = s.coding_issues := by
  simp only [get_or_create_site]
  split <;> rfl

lemma gocp_coding (s : Store) (k : String) (c : Cell) :
    ((get_or_create_patient s k c).2).coding_issues = s.coding_issues := by
  simp only [get_or_create_patient]
  split <;> rfl

/-- C5 counterexample: a `coding_issues` row supplying the invalid
issue type `"xyz"` stores type `"other"`, not `"meddra"`. -/
theorem coding_issue_type_counterexample :
    (codingIssuesRow emptyStore rowCodingBad).2 = none ∧
    (codingIssuesRow emptyStore rowCodingBad).1.coding_issues.map
      (fun c => c.issue_type) = ["other"] ∧
    "other" ≠ "meddra" := by
  decide

/-- C5 amended: every `coding_issues` row appends one brand-new
`CodingIssue`, leaving the existing rows untouched (no upsert); a
missing issue-type column defaults to `"meddra"`, while a supplied
type whose lowercase form is not in meddra/whodd/other is stored as
`"other"`. -/
theorem coding_issue_always_new (st : Store) (row : Row) :
    (row.lookup "issue_type" = none →
      ∃ st', codingIssuesRow st row = (st', none) ∧
        st'.coding_issues.take st.coding_issues.length = st.coding_issues ∧
        (st'.coding_issues.getLast?).map (fun r => r.issue_type) = some "meddra" ∧
        st'.coding_issues.length = st.coding_issues.length + 1) ∧
    (∀ s, row.lookup "issue_type" = some (Cell.str s) →
      ∃ st', codingIssuesRow st row = (st', none) ∧
        st'.coding_issues.take st.coding_issues.length = st.coding_issues ∧
        (st'.coding_issues.getLast?).map (fun r => r.issue_type) =
          some (if strLower s ∈ ["meddra", "whodd", "other"] then strLower s else "other") ∧
        st'.coding_issues.length = st.coding_issues.length + 1) := by
  have hm : strLower "meddra" = "meddra" := by decide
  constructor
  · intro h
    simp only [codingIssuesRow, h, hm]
    refine ⟨_, rfl, ?_, ?_, ?_⟩
    · simp [gocs_coding, gocp_coding, List.take_left]
    · simp [List.getLast?_concat]
    · simp [gocs_coding, gocp_coding]
  · intro s hs
    simp only [codingIssuesRow, hs]
    refine ⟨_, rfl, ?_, ?_, ?_⟩
    · simp [gocs_coding, gocp_coding, List.take_left]
    · simp [List.getLast?_concat]
    · simp [gocs_coding, gocp_coding]

/-- Witness for the amended C5 at the concrete bad-type row. -/
theorem coding_issue_always_new_witness :
    rowCodingBad.lookup "issue_type" = some (Cell.str "xyz") ∧
    (∃ st', codingIssuesRow emptyStore rowCodingBad = (st', none) ∧
      st'.coding_issues.take emptyStore.coding_issues.length = emptyStore.coding_issues ∧
      (st'.coding_issues.getLast?).map (fun r => r.issue_type) =
        some (if strLower "xyz" ∈ ["meddra", "whodd", "other"] then strLower "xyz"
          else "other") ∧
      st'.coding_issues.length = emptyStore.coding_issues.length + 1) :=
  ⟨by decide, (coding_issue_always_new emptyStore rowCodingBad).2 "xyz" (by decide)⟩

lemma gocs_queries (s : Store) (c : Cell) (a b : String) :
    ((get_or_create_site s c a b).2).queries = s.queries := by
  simp only [get_or_create_site]
  split <;> rfl

lemma gocp_queries (s : Store) (k : String) (c : Cell) :
    ((get_or_create_patient s k c).2).queries = s.queries := by
  simp only [get_or_create_patient]
  split <;> rfl

/-- Updating the (sole) match of `qid` replaces it by the defaults
record wholesale. -/
lemma queryMatches_map_update (qs : List QueryRec) (qid : String) (d : QueryRec)
    (hd : d.query_id = qid) :
    queryMatches (qs.map (fun q => if q.query_id == qid then d else q)) qid =
      List.replicate (queryMatches qs qid).length d := by
  induction qs with
  | nil => rfl
  | cons a t ih =>
    simp only [queryMatches, List.map_cons, List.filter_cons] at ih ⊢
    by_cases ha : a.query_id = qid <;>
      simp [ha, hd, List.replicate_succ] at ih ⊢ <;>
      exact ih

/-- C6: the `open_queries` upsert is keyed on `query_id` alone.  When
exactly one query with the row's `query_id` exists anywhere in the
store — under whatever patient — the row updates that record in place
(no second query is created): afterwards the single match carries the
row's site and patient (silently reassigning it), the parsed
`opened_date`, `is_resolved = false` and
`days_open = today - opened_date`. -/
theorem open_queries_upsert_reassigns (today : Int) (st : Store) (row : Row)
    (q0 : QueryRec) (d : Int)
    (hdate : toDateOpt (getCell row "opened_date") = some d)
    (hmatch : queryMatches st.queries (strTrim (cellStr (getCell row "query_id"))) = [q0]) :
    ∃ st' q', openQueriesRow today st row = (st', none) ∧
      st'.queries.length = st.queries.length ∧
      queryMatches st'.queries (strTrim (cellStr (getCell row "query_id"))) = [q'] ∧
      q'.site_number = strTrim (cellStr (getCell row "site_number")) ∧
      q'.patient_id = strTrim (cellStr (getCell row "patient_id")) ∧
      q'.opened_date = d ∧ q'.is_resolved = false ∧ q'.days_open = today - d := by
  simp only [openQueriesRow, hdate, queryUpdateOrCreate, gocp_queries, gocs_queries, hmatch]
  refine ⟨_, openQueriesDefaults today row (strTrim (cellStr (getCell row "site_number")))
      (strTrim (cellStr (getCell row "patient_id"))) d,
    rfl, ?_, ?_, rfl, rfl, rfl, rfl, rfl⟩
  · simp
  · dsimp only
    rw [queryMatches_map_update, hmatch] <;> rfl

/-- Witness for C6: the query `Q1` stored under patient P1 is
reassigned to P2 by an `open_queries` row with the same id. -/
theorem open_queries_upsert_reassigns_witness :
    toDateOpt (getCell rowQueryReassign "opened_date") = some 100 ∧
    queryMatches storeQ.queries
      (strTrim (cellStr (getCell rowQueryReassign "query_id"))) = [queryUnderP1] ∧
    queryUnderP1.patient_id ≠ strTrim (cellStr (getCell rowQueryReassign "patient_id")) ∧
    (∃ st' q', openQueriesRow 110 storeQ rowQueryReassign = (st', none) ∧
      st'.queries.length = storeQ.queries.length ∧
      queryMatches st'.queries
        (strTrim (cellStr (getCell rowQueryReassign "query_id"))) = [q'] ∧
      q'.site_number = strTrim (cellStr (getCell rowQueryReassign "site_number")) ∧
      q'.patient_id = strTrim (cellStr (getCell rowQueryReassign "patient_id")) ∧
      q'.opened_date = 100 ∧ q'.is_resolved = false ∧ q'.days_open = 110 - 100) :=
  ⟨by decide, by decide, by decide,
   open_queries_upsert_reassigns 110 storeQ rowQueryReassign queryUnderP1 100
     (by decide) (by decide)⟩


lemma gocs_key (s : Store) (c : Cell) (a b : String) :
    (get_or_create_site s c a b).1 = strTrim (cellStr c) := rfl

lemma gocp_key (s : Store) (k : String) (c : Cell) :
    (get_or_create_patient s k c).1 = strTrim (cellStr c) := rfl

lemma queryMatches_nil_of_unique (qs : List QueryRec) (qid : String)
    (h : qidUnique qs) :
    queryMatches qs qid = [] ∨ ∃ q, queryMatches qs qid = [q] := by
  induction qs with
  | nil => exact Or.inl rfl
  | cons a t ih =>
    rw [qidUnique, List.map_cons, List.nodup_cons] at h
    obtain ⟨hna, hnt⟩ := h
    by_cases ha : a.query_id = qid
    · right
      refine ⟨a, ?_⟩
      have hft : queryMatches t qid = [] := by
        rw [queryMatches, List.filter_eq_nil_iff]
        intro q hq hbeq
        exact hna (ha ▸ (by simpa using hbeq) ▸ List.mem_map_of_mem (fun x => x.query_id) hq)
      simp [queryMatches, List.filter_cons, ha] at hft ⊢
      simpa [queryMatches] using hft
    · have := ih hnt
      simpa [queryMatches, List.filter_cons, ha] using this

lemma queryUpdateOrCreate_ok (qs : List QueryRec) (qid : String) (d : QueryRec)
    (hd : d.query_id = qid) (hu : qidUnique qs) :
    ∃ qs', queryUpdateOrCreate qs qid d = .ok qs' ∧ qidUnique qs' := by
  rcases queryMatches_nil_of_unique qs qid hu with h | ⟨q, h⟩
  · refine ⟨qs ++ [d], by simp [queryUpdateOrCreate, h], ?_⟩
    have hnotin : d.query_id ∉ qs.map (fun q => q.query_id) := by
      intro hmem
      obtain ⟨q, hq, hqe⟩ := List.mem_map.mp hmem
      have : queryMatches qs qid ≠ [] := by
        rw [queryMatches]
        intro hc
        rw [List.filter_eq_nil_iff] at hc
        exact hc q hq (by simp [hqe, hd])
      exact this h
    rw [qidUnique, List.map_append]
    simp only [List.nodup_append, List.map_cons, List.map_nil]
    refine ⟨hu, List.nodup_singleton _, ?_⟩
    intro x hx hx1
    simp only [List.mem_singleton] at hx1
    exact hnotin (hx1 ▸ hx)
  · refine ⟨qs.map (fun q => if q.query_id == qid then d else q),
      by simp [queryUpdateOrCreate, h], ?_⟩
    have hmapeq : (qs.map (fun q => if q.query_id == qid then d else q)).map
        (fun q => q.query_id) = qs.map (fun q => q.query_id) := by
      rw [List.map_map]
      apply List.map_congr_left
      intro a ha
      by_cases h' : a.query_id = qid <;> simp [h', hd, Function.comp]
    rw [qidUnique, hmapeq]
    exact hu

lemma openQueriesRow_fail (today : Int) (st : Store) (row : Row)
    (h : okOpenQueriesRow row = false) :
    (openQueriesRow today st row).1.queries = st.queries ∧
    (openQueriesRow today st row).2 = some "Unknown datetime string format" := by
  have hn : toDateOpt (getCell row "opened_date") = none := by
    rcases htd : toDateOpt (getCell row "opened_date") with _ | d
    · rfl
    · rw [okOpenQueriesRow, htd] at h
      simp at h
  constructor <;> simp [openQueriesRow, hn, gocp_queries, gocs_queries]

lemma openQueriesRow_ok_shape (today : Int) (st : Store) (row : Row) (d : Int)
    (hdate : toDateOpt (getCell row "opened_date") = some d) (hu : qidUnique st.queries) :
    (openQueriesRow today st row).2 = none ∧
    qidUnique (openQueriesRow today st row).1.queries := by
  obtain ⟨qs', hok, hu'⟩ := queryUpdateOrCreate_ok st.queries
    (strTrim (cellStr (getCell row "query_id")))
    (openQueriesDefaults today row (strTrim (cellStr (getCell row "site_number")))
      (strTrim (cellStr (getCell row "patient_id"))) d) rfl hu
  simp only [openQueriesRow, hdate, gocp_queries, gocs_queries, gocs_key, gocp_key, hok]
  exact ⟨trivial, hu'⟩

lemma openQueriesRow_depends_on_queries (today : Int) (row : Row) (st st2 : Store)
    (h : st.queries = st2.queries) :
    (openQueriesRow today st row).1.queries = (openQueriesRow today st2 row).1.queries ∧
    (openQueriesRow today st row).2 = (openQueriesRow today st2 row).2 := by
  rcases hd : toDateOpt (getCell row "opened_date") with _ | d
  · constructor <;> simp [openQueriesRow, hd, gocp_queries, gocs_queries, h]
  · simp only [openQueriesRow, hd, gocp_queries, gocs_queries, gocs_key, gocp_key, h]
    rcases hq : queryUpdateOrCreate st2.queries (strTrim (cellStr (getCell row "query_id")))
        (openQueriesDefaults today row (strTrim (cellStr (getCell row "site_number")))
          (strTrim (cellStr (getCell row "patient_id"))) d) with e | qs
    · constructor <;> simp [gocp_queries, gocs_queries, h]
    · constructor <;> simp

lemma processRows_openQueries (today : Int) (rows : List Row) :
    ∀ (st st2 : Store) (idx idx2 : Nat), st.queries = st2.queries → qidUnique st.queries →
    (processRows (openQueriesRow today) st idx rows).2.1 = rows.countP okOpenQueriesRow ∧
    (processRows (openQueriesRow today) st idx rows).2.2.length =
      rows.length - rows.countP okOpenQueriesRow ∧
    (∀ e ∈ (processRows (openQueriesRow today) st idx rows).2.2,
      ∃ (i : Nat) (m : String), e = "Row " ++ toString i ++ ": " ++ m) ∧
    (processRows (openQueriesRow today) st idx rows).1.queries =
      (processRows (openQueriesRow today) st2 idx2
        (rows.filter okOpenQueriesRow)).1.queries := by
  induction rows with
  | nil =>
    intro st st2 idx idx2 h hu
    exact ⟨rfl, rfl, by simp [processRows], by simpa [processRows] using h⟩
  | cons r rs ih =>
    intro st st2 idx idx2 h hu
    rcases hstepA : openQueriesRow today st r with ⟨stA, eA⟩
    have hdep := openQueriesRow_depends_on_queries today r st st2 h
    rcases hstepB : openQueriesRow today st2 r with ⟨stB, eB⟩
    rw [hstepA, hstepB] at hdep
    simp only at hdep
    obtain ⟨hqAB, heAB⟩ := hdep
    by_cases hok : okOpenQueriesRow r = true
    · obtain ⟨d, hdate⟩ : ∃ d, toDateOpt (getCell r "opened_date") = some d := by
        rw [okOpenQueriesRow] at hok
        exact Option.isSome_iff_exists.mp hok
      have hshape := openQueriesRow_ok_shape today st r d hdate hu
      rw [hstepA] at hshape
      simp only at hshape
      obtain ⟨heA, huA⟩ := hshape
      subst heA
      have hfil : (r :: rs).filter okOpenQueriesRow = r :: rs.filter okOpenQueriesRow := by
        simp [List.filter_cons, hok]
      have hcount : (r :: rs).countP okOpenQueriesRow =
          rs.countP okOpenQueriesRow + 1 := by
        simp [List.countP_cons, hok]
      obtain ⟨ih1, ih2, ih3, ih4⟩ := ih stA stB (idx + 1) (idx2 + 1) hqAB huA
      have hle : rs.countP okOpenQueriesRow ≤ rs.length := List.countP_le_length _
      refine ⟨?_, ?_, ?_, ?_⟩
      · simp only [processRows, hstepA, hcount]
        simpa using ih1
      · simp only [processRows, hstepA, hcount, List.length_cons]
        omega
      · simp only [processRows, hstepA]
        simpa using ih3
      · simp only [processRows, hstepA, hfil, hstepB]
        rw [← heAB]
        simpa using ih4
    · have hokf : okOpenQueriesRow r = false := eq_false_of_ne_true hok
      have hfailA := openQueriesRow_fail today st r hokf
      rw [hstepA] at hfailA
      simp only at hfailA
      obtain ⟨hqA, heA⟩ := hfailA
      subst heA
      have huA : qidUnique stA.queries := by rw [hqA]; exact hu
      have hfil : (r :: rs).filter okOpenQueriesRow = rs.filter okOpenQueriesRow := by
        simp [List.filter_cons, hokf]
      have hcount : (r :: rs).countP okOpenQueriesRow = rs.countP okOpenQueriesRow := by
        simp [List.countP_cons, hokf]
      obtain ⟨ih1, ih2, ih3, ih4⟩ := ih stA st2 (idx + 1) idx2 (hqA.trans h) huA
      have hle : rs.countP okOpenQueriesRow ≤ rs.length := List.countP_le_length _
      refine ⟨?_, ?_, ?_, ?_⟩
      · simp only [processRows, hstepA, hcount]
        simpa using ih1
      · simp only [processRows, hstepA, hcount, List.length_cons]
        omega
      · simp only [processRows, hstepA]
        intro e he
        simp only [List.mem_cons] at he
        rcases he with he1 | he2
        · exact ⟨idx, "Unknown datetime string format", he1⟩
        · exact ih3 e he2
      · simp only [processRows, hstepA, hfil]
        simpa using ih4

/-- C9 counterexample: a malformed-date row for a brand-new site and
patient is excluded from `rows_processed`, appends one row-level
error and stores no Query — but it does have a record-store effect:
the site (and patient) get-or-create that ran before the failing
date parse created records. -/
theorem open_queries_malformed_date_counterexample :
    (parse_open_queries 0 dfBadDate emptyStore).2.1 = 0 ∧
    (parse_open_queries 0 dfBadDate emptyStore).2.2 =
      ["Row 0: Unknown datetime string format"] ∧
    (parse_open_queries 0 dfBadDate emptyStore).1.queries = [] ∧
    (parse_open_queries 0 dfBadDate emptyStore).1.sites.map
      (fun s => s.site_number) = ["S9"] ∧
    (parse_open_queries 0 dfBadDate emptyStore).1 ≠ emptyStore := by
  decide

/-- C9 amended: with the required columns present and distinct stored
`query_id`s, a per-row exception affects only that row: one error of
the form `"Row N: <message>"` is appended, processing continues, and
`rows_processed` counts exactly the rows that completed without an
exception; a failing row stores no Query (the Query table evolves as
if the failing rows were absent), though the site/patient
get-or-creates that precede the failure may still create Site and
Patient records. -/
theorem parse_open_queries_row_isolation (today : Int) (cols : List String)
    (rows : List Row) (st : Store)
    (hcols : hasRequired ⟨cols, rows⟩
      ["site_number", "patient_id", "query_id", "opened_date"] = true)
    (huniq : qidUnique st.queries) :
    (parse_open_queries today ⟨cols, rows⟩ st).2.1 = rows.countP okOpenQueriesRow ∧
    (parse_open_queries today ⟨cols, rows⟩ st).2.2.length =
      rows.length - rows.countP okOpenQueriesRow ∧
    (∀ e ∈ (parse_open_queries today ⟨cols, rows⟩ st).2.2,
      ∃ (i : Nat) (m : String), e = "Row " ++ toString i ++ ": " ++ m) ∧
    (parse_open_queries today ⟨cols, rows⟩ st).1.queries =
      (parse_open_queries today ⟨cols, rows.filter okOpenQueriesRow⟩ st).1.queries := by
  have h := processRows_openQueries today rows st st 0 0 rfl huniq
  have hfil : hasRequired ⟨cols, rows.filter okOpenQueriesRow⟩
      ["site_number", "patient_id", "query_id", "opened_date"] = true := hcols
  simp only [parse_open_queries, hcols, hfil, if_pos]
  exact h

/-- Witness for the amended C9: one good row and one malformed-date
row; the sheet processes one row, appends one formatted error, and
its Query table matches the run on the good row alone. -/
theorem parse_open_queries_row_isolation_witness :
    hasRequired ⟨["site_number", "patient_id", "query_id", "opened_date"],
      [rowQueryReassign, rowBadDate]⟩
      ["site_number", "patient_id", "query_id", "opened_date"] = true ∧
    (storeQ.queries.map (fun q => q.query_id)).Nodup ∧
    ((parse_open_queries 110 ⟨["site_number", "patient_id", "query_id", "opened_date"],
        [rowQueryReassign, rowBadDate]⟩ storeQ).2.1 =
      [rowQueryReassign, rowBadDate].countP okOpenQueriesRow ∧
    (parse_open_queries 110 ⟨["site_number", "patient_id", "query_id", "opened_date"],
        [rowQueryReassign, rowBadDate]⟩ storeQ).2.2.length =
      [rowQueryReassign, rowBadDate].length -
        [rowQueryReassign, rowBadDate].countP okOpenQueriesRow ∧
    (∀ e ∈ (parse_open_queries 110 ⟨["site_number", "patient_id", "query_id",
        "opened_date"], [rowQueryReassign, rowBadDate]⟩ storeQ).2.2,
      ∃ (i : Nat) (m : String), e = "Row " ++ toString i ++ ": " ++ m) ∧
    (parse_open_queries 110 ⟨["site_number", "patient_id", "query_id", "opened_date"],
        [rowQueryReassign, rowBadDate]⟩ storeQ).1.queries =
      (parse_open_queries 110 ⟨["site_number", "patient_id", "query_id", "opened_date"],
        [rowQueryReassign, rowBadDate].filter okOpenQueriesRow⟩ storeQ).1.queries) :=
  ⟨by decide, by decide,
   parse_open_queries_row_isolation 110
     ["site_number", "patient_id", "query_id", "opened_date"]
     [rowQueryReassign, rowBadDate] storeQ (by decide)
     (by show (storeQ.queries.map (fun q => q.query_id)).Nodup; decide)⟩

end Nest
